import Mathlib

/-!
# Movies proxy: `server/server.go`

A shallow embedding of the request-forwarding and error-classification code of
`server/server.go` and the properties its specification states about it.

Conventions of the embedding

* A Go `string` is a Lean `String`; a Go `[]byte` is a `List UInt8`; the
  conversion of a string to the bytes written on the wire is `bytesOf`
  (UTF-8, as Go strings are stored).
* The `http.ResponseWriter` is modelled by the list of calls made on it
  (`WriteHeader` and `Write`), in order; `WriteHeader` panics for a status
  code outside 100..999, as the writers of `net/http` do. Header fields are
  not modelled.
* The package `movies/keys` (constants `PATH_API_TMD`, `API_KEY`) is not part
  of the sources at hand; both constants are parameters (`Env`).
* `net/http` is an external library: `http.NewRequest` and
  `http.DefaultClient.Do` are parameters of the model (`Env`), so every theorem
  holds for every behaviour of the library and of the upstream host.
* A Go value of interface type `error` is a `GoError`; `GoError.nil` is the nil
  interface. A call that panics has no result (`none`); a function that is
  left by a panic returns no error value (`none`), and a panic that leaves the
  handler is recorded in the state (`panicked`).
-/

namespace Server

/-! ## Data model -/

/-- A value of the Go interface type `error`, restricted to the dynamic types
this package can meet: the nil interface, the three struct types declared in
`server.go` (each embeds an `error`, which may itself be nil), and any error
value of a foreign type (from `net/http`, `io`), known by its message. -/
inductive GoError where
  | nil : GoError
  | badRequest (error : GoError) : GoError
  | notFound (error : GoError) : GoError
  | notAuthorized (error : GoError) : GoError
  | other (msg : String) : GoError
  deriving DecidableEq, Repr

/-- The method `Error()` of an error value. For the three struct types the
method is promoted from the embedded `error` field; calling it when that field
is the nil interface is a nil dereference, a run-time panic (`none`). -/
def GoError.Error : GoError → Option String
  | .nil => none
  | .badRequest e => e.Error
  | .notFound e => e.Error
  | .notAuthorized e => e.Error
  | .other msg => some msg

/-- One call made on the `http.ResponseWriter`. -/
inductive WriterCall where
  | WriteHeader (statusCode : Nat) : WriterCall
  | Write (p : List UInt8) : WriterCall
  deriving DecidableEq, Repr

/-- The observable state of the handling of one inbound request. -/
structure State where
  /-- calls made on the response writer so far, oldest first -/
  calls : List WriterCall
  /-- the upstream response body: `none` while no upstream response has been
  obtained, `some false` once obtained and still open, `some true` once closed -/
  bodyClosed : Option Bool
  /-- lines printed with `log.Println` -/
  logged : List String
  /-- a run-time panic has left the handler -/
  panicked : Bool
  deriving DecidableEq, Repr

/-- The state in which the server calls a handler: nothing written. -/
def State.fresh : State :=
  { calls := [], bodyClosed := none, logged := [], panicked := false }

/-- An outbound request as built by `http.NewRequest`. -/
structure Request where
  Method : String
  URL : String
  deriving DecidableEq, Repr

/-- An upstream response: its status code and what `ioutil.ReadAll(res.Body)`
yields, the bytes of the body or a read error (its message). -/
structure Response where
  StatusCode : Nat
  Body : Except String (List UInt8)

/-- Everything outside `server.go`: the constants of package `keys` and the
behaviour of `net/http` during this run. -/
structure Env where
  PATH_API_TMD : String
  API_KEY : String
  /-- value of `http.NewRequest(m, url, nil)`: a request, or an error -/
  NewRequest : String → String → Except String Request
  /-- value of `http.DefaultClient.Do(req)`: a response, or a transport error -/
  Do : Request → Except String Response

/-- One entry of `r.URL.Query()` (a `url.Values`, `map[string][]string`): a
parameter name and its values. `url.ParseQuery` only ever appends a value to
the slice of a name, so every slice in the map has a first element `v[0]`. -/
structure QueryEntry where
  n : String
  v0 : String
  vrest : List String
  deriving DecidableEq, Repr

/-- The inbound request as far as the handlers read it: `r.URL.Path` and the
entries of `r.URL.Query()`, listed in the order in which the `range` loop of
this run visits the map (Go leaves that order unspecified). -/
structure HttpRequest where
  Path : String
  Query : List QueryEntry
  deriving DecidableEq, Repr

/-! ## Library operations -/

/-- The bytes of a string. -/
def bytesOf (s : String) : List UInt8 := s.toUTF8.data.toList

/-- The call `w.WriteHeader(statusCode)`. The writer first checks the code
and panics (`invalid WriteHeader code`) for a code below 100 or above 999:
`none`, and nothing is recorded. -/
def WriteHeader (st : State) (statusCode : Nat) : Option State :=
  if statusCode < 100 ∨ 999 < statusCode then none
  else some { st with calls := st.calls ++ [WriterCall.WriteHeader statusCode] }

/-- The call `w.Write(p)`. -/
def Write (st : State) (p : List UInt8) : State :=
  { st with calls := st.calls ++ [WriterCall.Write p] }

/-- The library function `http.Error(w, error, code)`: it calls
`w.WriteHeader(code)` and then `fmt.Fprintln(w, error)`, which writes the
message followed by a line feed. It panics (`none`) when `WriteHeader` does. -/
def httpError (st : State) (error : String) (code : Nat) : Option State :=
  match WriteHeader st code with
  | none => none
  | some st1 => some (Write st1 (bytesOf (error ++ "\n")))

/-- The state after a call made from state `st` as the last statement of the
handler: the state the call leaves, or `st` with the panic recorded when the
call panics. -/
def orPanic (st : State) (after : Option State) : State :=
  match after with
  | some st1 => st1
  | none => { st with panicked := true }

/-- The call `log.Println(err)`. -/
def logPrintln (st : State) (err : GoError) : State :=
  { st with logged := st.logged ++ [(err.Error).getD "<nil>"] }

/-- The call `res.Body.Close()`. -/
def closeBody (st : State) : State :=
  { st with bodyClosed := some true }

/-- Splitting a sequence at every occurrence of a one-character separator:
`strings.Split(s, sep)` for `len(sep) = 1`. -/
def splitChars (sep : Char) : List Char → List (List Char)
  | [] => [[]]
  | c :: cs =>
    if c = sep then [] :: splitChars sep cs
    else match splitChars sep cs with
      | [] => [[c]]
      | seg :: segs => (c :: seg) :: segs

/-- The library function `strings.Split(s, "/")`. -/
def stringsSplitSlash (s : String) : List String :=
  (splitChars '/' s.data).map String.mk

/-! ## What the caller receives -/

/-- The status line the caller receives: the code of the first `WriteHeader`;
a `Write` before any `WriteHeader` sends 200; `none` when nothing was sent. -/
def sentStatus : List WriterCall → Option Nat
  | [] => none
  | WriterCall.WriteHeader c :: _ => some c
  | WriterCall.Write _ :: _ => some 200

/-- The body the caller receives: all written bytes, in order. -/
def sentBody : List WriterCall → List UInt8
  | [] => []
  | WriterCall.WriteHeader _ :: cs => sentBody cs
  | WriterCall.Write p :: cs => p ++ sentBody cs

/-- Number of `WriteHeader` calls. -/
def statusWrites : List WriterCall → Nat
  | [] => 0
  | WriterCall.WriteHeader _ :: cs => statusWrites cs + 1
  | WriterCall.Write _ :: cs => statusWrites cs

/-- Number of `Write` calls. -/
def bodyWrites : List WriterCall → Nat
  | [] => 0
  | WriterCall.WriteHeader _ :: cs => bodyWrites cs
  | WriterCall.Write _ :: cs => bodyWrites cs + 1

/-- Substring test on strings. -/
def Contains (s sub : String) : Prop := sub.data <:+: s.data

instance (s sub : String) : Decidable (Contains s sub) := by
  unfold Contains; infer_instance

/-! ## The code of `server.go` -/

/-- The function `errorHandler`: run `f`; on a nil error return; otherwise
switch on the dynamic type of the error. In the `badRequest` case the argument
`err.Error()` is evaluated before `http.Error` is entered. The function has no
`recover`: a panic inside `f` (`f` returns no error value) leaves the handler. -/
def errorHandler (f : HttpRequest → State → Option GoError × State)
    (r : HttpRequest) (st : State) : State :=
  match f r st with
  | (none, st1) => { st1 with panicked := true }
  | (some err, st1) =>
    match err with
    | .nil => st1
    | .badRequest _ =>
      match err.Error with
      | none => { st1 with panicked := true }
      | some msg => orPanic st1 (httpError st1 msg 400)
    | .notFound _ => orPanic st1 (httpError st1 "Task not found" 404)
    | .notAuthorized _ => orPanic st1 (httpError st1 "Invalid API key" 401)
    | .other _ =>
      orPanic (logPrintln st1 err) (httpError (logPrintln st1 err) "oops" 500)

/-- The function `newRequest`: the error it returns (`some`), or `none` when a
panic leaves it. The deferred `res.Body.Close()` is registered after the two
early returns that follow `Do`; it runs on the two returns below it and also
when `w.WriteHeader` panics, in which case `w.Write` is not reached. -/
def newRequest (env : Env) (m : String) (url : String) (st : State) :
    Option GoError × State :=
  match env.NewRequest m url with
  | .error _ => (some (.badRequest .nil), st)
  | .ok req =>
    match env.Do req with
    | .error _ => (some (.notFound .nil), st)
    | .ok res =>
      let st1 := { st with bodyClosed := some false }
      if res.StatusCode = 401 then (some (.notAuthorized .nil), st1)
      else
        match res.Body with
        | .error e => (some (.other e), closeBody st1)
        | .ok body =>
          match WriteHeader st1 res.StatusCode with
          | none => (none, closeBody st1)
          | some st2 => (some .nil, closeBody (Write st2 body))

/-- The upstream URL built by `ListMoviesDiscover`: the `range` loop appends
one piece per map entry. -/
def discoverURL (env : Env) (r : HttpRequest) : String :=
  r.Query.foldl (fun url e => url ++ ("&" ++ e.n ++ "=" ++ e.v0))
    (env.PATH_API_TMD ++ "discover/movie?" ++ "api_key=" ++ env.API_KEY)

/-- The function `ListMoviesDiscover`. -/
def ListMoviesDiscover (env : Env) (r : HttpRequest) (st : State) :
    Option GoError × State :=
  newRequest env "GET" (discoverURL env r) st

/-- The `id` computed by `GetMovie`: the loop `for i := range s { id = s[i] }`
over `s := strings.Split(r.URL.Path, "/")`, starting from the zero value. -/
def movieId (r : HttpRequest) : String :=
  (stringsSplitSlash r.Path).foldl (fun _ si => si) ""

/-- The upstream URL built by `GetMovie`. -/
def movieURL (env : Env) (r : HttpRequest) : String :=
  env.PATH_API_TMD ++ "movie/" ++ movieId r ++ "?api_key=" ++ env.API_KEY

/-- The function `GetMovie`. -/
def GetMovie (env : Env) (r : HttpRequest) (st : State) : Option GoError × State :=
  newRequest env "GET" (movieURL env r) st

/-! ## Concrete environments used in the examples -/

/-- Keys used in the examples. -/
def exampleBase : String := "https://api.example.org/3/"

/-- An upstream that answers every request with the given status and body. -/
def constEnv (status : Nat) (body : Except String (List UInt8)) : Env :=
  { PATH_API_TMD := exampleBase
    API_KEY := "k"
    NewRequest := fun m url => .ok { Method := m, URL := url }
    Do := fun _ => .ok { StatusCode := status, Body := body } }

/-- The body of the first passthrough example of the specification. -/
def body550 : List UInt8 := bytesOf "\x7b\"id\":550\x7d"

/-- The body of the second passthrough example of the specification. -/
def bodyErrX : List UInt8 := bytesOf "\x7b\"error\":\"x\"\x7d"

/-- An upstream host that cannot be reached: every `Do` is a transport error. -/
def downEnv : Env :=
  { PATH_API_TMD := exampleBase
    API_KEY := "k"
    NewRequest := fun m url => .ok { Method := m, URL := url }
    Do := fun _ => .error "dial tcp: connection refused" }

/-- The request `GET /v1/movies/550`. -/
def reqMovie550 : HttpRequest := { Path := "/v1/movies/550", Query := [] }

/-- The request `GET /v1/movies?page=2`. -/
def reqDiscover : HttpRequest :=
  { Path := "/v1/movies", Query := [{ n := "page", v0 := "2", vrest := [] }] }


/-- The request `GET /v1/movies?a=1&b=2`, its parameter map visited `a` first. -/
def reqAB : HttpRequest :=
  { Path := "/v1/movies"
    Query := [{ n := "a", v0 := "1", vrest := [] }, { n := "b", v0 := "2", vrest := [] }] }

/-- The same request `GET /v1/movies?a=1&b=2`, its parameter map visited `b` first. -/
def reqBA : HttpRequest :=
  { Path := "/v1/movies"
    Query := [{ n := "b", v0 := "2", vrest := [] }, { n := "a", v0 := "1", vrest := [] }] }

/-- A deterministic upstream, a function of the URL alone: it answers 200 with
an empty body to one URL and 404 with an empty body to every other URL. -/
def orderEnv : Env :=
  { PATH_API_TMD := exampleBase
    API_KEY := "k"
    NewRequest := fun m url => .ok { Method := m, URL := url }
    Do := fun req =>
      if req.URL = "https://api.example.org/3/discover/movie?api_key=k&a=1&b=2" then
        .ok { StatusCode := 200, Body := .ok [] }
      else .ok { StatusCode := 404, Body := .ok [] } }

/-- ASCII control characters, which `url.Parse` (and with it `http.NewRequest`)
rejects anywhere in a URL. -/
def isCTL (c : Char) : Bool := c.toNat < 32 || c.toNat = 127

/-- An environment in which `http.NewRequest` fails on a URL holding an ASCII
control character, and the upstream answers 200 with an empty body. -/
def ctlEnv : Env :=
  { PATH_API_TMD := exampleBase
    API_KEY := "k"
    NewRequest := fun m url =>
      if url.data.any isCTL then .error "net/url: invalid control character in URL"
      else .ok { Method := m, URL := url }
    Do := fun _ => .ok { StatusCode := 200, Body := .ok [] } }

/-- The request `GET /v1/movies?a=%0A`: parameter `a` with the value line feed. -/
def reqCtlQuery : HttpRequest :=
  { Path := "/v1/movies", Query := [{ n := "a", v0 := "\n", vrest := [] }] }

/-- The request `GET /v1/movies/%7F`: the last path segment is the character DEL. -/
def reqCtlPath : HttpRequest := { Path := "/v1/movies/\x7f", Query := [] }

/-- The request `GET /v1/movies?a=1&a=2`: the name `a` is repeated. -/
def reqRepeated : HttpRequest :=
  { Path := "/v1/movies", Query := [{ n := "a", v0 := "1", vrest := ["2"] }] }

/-- The piece `&<name>=<first-value>` of one query parameter. -/
def queryPiece (e : QueryEntry) : String := "&" ++ e.n ++ "=" ++ e.v0

/-- An upstream whose discovery endpoint cannot be reached while every other
URL is answered with 200 and the body of the first passthrough example. -/
def discoverDownEnv : Env :=
  { PATH_API_TMD := exampleBase
    API_KEY := "k"
    NewRequest := fun m url => .ok { Method := m, URL := url }
    Do := fun req =>
      if req.URL = "https://api.example.org/3/discover/movie?api_key=k&page=2" then
        .error "dial tcp: connection refused"
      else .ok { StatusCode := 200, Body := .ok body550 } }
/-! ## Auxiliary lemmas -/

theorem foldl_keep_nonempty {α : Type} (l : List α) (h : l ≠ []) (d e : α) :
    l.foldl (fun _ x => x) d = l.foldl (fun _ x => x) e := by
  cases l with
  | nil => exact absurd rfl h
  | cons a t => rfl

theorem foldl_keep_map {α β : Type} (f : α → β) (l : List α) (d : α) :
    (l.map f).foldl (fun _ x => x) (f d) = f (l.foldl (fun _ x => x) d) := by
  induction l generalizing d with
  | nil => rfl
  | cons a t ih => simpa using ih a

theorem splitChars_ne_nil (sep : Char) (cs : List Char) : splitChars sep cs ≠ [] := by
  cases cs with
  | nil => simp [splitChars]
  | cons c t =>
    by_cases hc : c = sep
    · simp [splitChars, hc]
    · cases hs : splitChars sep t <;> simp [splitChars, hc, hs]

theorem splitChars_last (sep : Char) (cs : List Char) (d : List Char) :
    sep ∉ (splitChars sep cs).foldl (fun _ x => x) d ∧
    ((sep ∉ cs ∧ splitChars sep cs = [cs]) ∨
      (∃ pre, cs = pre ++ sep :: (splitChars sep cs).foldl (fun _ x => x) d) ∧
        2 ≤ (splitChars sep cs).length) := by
  induction cs generalizing d with
  | nil => simp [splitChars]
  | cons c t ih =>
    by_cases hc : c = sep
    · subst hc
      have h := ih []
      simp only [splitChars, if_true, List.foldl_cons]
      refine ⟨h.1, Or.inr ⟨?_, ?_⟩⟩
      · rcases h.2 with ⟨_, h2⟩ | ⟨⟨pre, h2⟩, _⟩
        · refine ⟨[], ?_⟩
          rw [h2]; simp
        · refine ⟨c :: pre, ?_⟩
          rw [List.cons_append, ← h2]
      · have := List.length_pos.mpr (splitChars_ne_nil c t)
        simp only [List.length_cons]; omega
    · rcases (ih d).2 with ⟨h1, h2⟩ | ⟨⟨pre, h2⟩, h3⟩
      · simp only [splitChars, hc, if_false, h2, List.foldl_cons, List.foldl_nil]
        refine ⟨?_, Or.inl ⟨?_, trivial⟩⟩
        · simp only [List.mem_cons, not_or]; exact ⟨fun h => hc h.symm, h1⟩
        · simp only [List.mem_cons, not_or]; exact ⟨fun h => hc h.symm, h1⟩
      · have h0 := (ih d).1
        cases hs : splitChars sep t with
        | nil => exact absurd hs (splitChars_ne_nil sep t)
        | cons seg segs =>
          rw [hs] at h2 h3 h0
          have hne : segs ≠ [] := by
            intro h; subst h; simp at h3
          simp only [splitChars, hc, if_false, hs, List.foldl_cons] at h2 h0 ⊢
          rw [foldl_keep_nonempty segs hne (c :: seg) seg]
          refine ⟨h0, Or.inr ⟨⟨c :: pre, ?_⟩, ?_⟩⟩
          · rw [List.cons_append, ← h2]
          · simpa using h3

theorem movieId_data (r : HttpRequest) :
    (movieId r).data = (splitChars '/' r.Path.data).foldl (fun _ x => x) [] := by
  unfold movieId stringsSplitSlash
  have h := foldl_keep_map String.mk (splitChars '/' r.Path.data) []
  have h2 : String.mk [] = "" := rfl
  rw [h2] at h
  rw [h]

theorem foldl_append_pieces {α : Type} (f : α → String) (l : List α) (init : String) :
    l.foldl (fun url e => url ++ f e) init = init ++ String.join (l.map f) := by
  induction l generalizing init with
  | nil => simp [String.join]
  | cons a t ih =>
    simp only [List.foldl_cons, List.map_cons]
    rw [ih]
    apply String.ext
    simp [String.join_eq, List.append_assoc]

/-! ## The exits of `newRequest` -/

theorem newRequest_of_construct_error (env : Env) (m url : String) (st : State) (e : String)
    (hreq : env.NewRequest m url = .error e) :
    newRequest env m url st = (some (GoError.badRequest GoError.nil), st) := by
  simp [newRequest, hreq]

theorem newRequest_of_transport_error (env : Env) (m url : String) (st : State)
    (req : Request) (e : String)
    (hreq : env.NewRequest m url = .ok req) (hdo : env.Do req = .error e) :
    newRequest env m url st = (some (GoError.notFound GoError.nil), st) := by
  simp [newRequest, hreq, hdo]

theorem newRequest_of_unauthorized (env : Env) (m url : String) (st : State)
    (req : Request) (res : Response)
    (hreq : env.NewRequest m url = .ok req) (hdo : env.Do req = .ok res)
    (hs : res.StatusCode = 401) :
    newRequest env m url st =
      (some (GoError.notAuthorized GoError.nil), { st with bodyClosed := some false }) := by
  simp [newRequest, hreq, hdo, hs]

theorem newRequest_of_read_error (env : Env) (m url : String) (st : State)
    (req : Request) (s : Nat) (e : String)
    (hreq : env.NewRequest m url = .ok req)
    (hdo : env.Do req = .ok { StatusCode := s, Body := .error e })
    (hs : s ≠ 401) :
    newRequest env m url st = (some (GoError.other e), { st with bodyClosed := some true }) := by
  simp [newRequest, hreq, hdo, hs, closeBody]

theorem WriteHeader_of_valid (st : State) (s : Nat) (hlo : 100 ≤ s) (hhi : s ≤ 999) :
    WriteHeader st s = some { st with calls := st.calls ++ [WriterCall.WriteHeader s] } := by
  have h : ¬ (s < 100 ∨ 999 < s) := by omega
  simp [WriteHeader, h]

theorem WriteHeader_of_invalid (st : State) (s : Nat) (h : s < 100 ∨ 999 < s) :
    WriteHeader st s = none := by
  simp [WriteHeader, h]

theorem httpError_of_valid (st : State) (msg : String) (code : Nat)
    (hlo : 100 ≤ code) (hhi : code ≤ 999) :
    httpError st msg code
      = some { st with
          calls := st.calls ++
            [WriterCall.WriteHeader code, WriterCall.Write (bytesOf (msg ++ "\n"))] } := by
  simp [httpError, WriteHeader_of_valid st code hlo hhi, Write]

theorem newRequest_of_body (env : Env) (m url : String) (st : State)
    (req : Request) (s : Nat) (b : List UInt8)
    (hreq : env.NewRequest m url = .ok req)
    (hdo : env.Do req = .ok { StatusCode := s, Body := .ok b })
    (hs : s ≠ 401) (hlo : 100 ≤ s) (hhi : s ≤ 999) :
    newRequest env m url st =
      (some GoError.nil,
        { st with
          calls := st.calls ++ [WriterCall.WriteHeader s, WriterCall.Write b]
          bodyClosed := some true }) := by
  simp [newRequest, hreq, hdo, hs, closeBody, Write, WriteHeader_of_valid _ s hlo hhi]

theorem newRequest_of_invalid_status (env : Env) (m url : String) (st : State)
    (req : Request) (s : Nat) (b : List UInt8)
    (hreq : env.NewRequest m url = .ok req)
    (hdo : env.Do req = .ok { StatusCode := s, Body := .ok b })
    (hbad : s < 100 ∨ 999 < s) :
    newRequest env m url st = (none, { st with bodyClosed := some true }) := by
  have hs : s ≠ 401 := by omega
  simp [newRequest, hreq, hdo, hs, closeBody, WriteHeader_of_invalid _ s hbad]

/-! ## The branches of `errorHandler` -/

theorem errorHandler_of_panic (f : HttpRequest → State → Option GoError × State)
    (r : HttpRequest) (st st1 : State) (h : f r st = (none, st1)) :
    errorHandler f r st = { st1 with panicked := true } := by
  simp only [errorHandler, h]

theorem errorHandler_of_nil (f : HttpRequest → State → Option GoError × State)
    (r : HttpRequest) (st st1 : State) (h : f r st = (some GoError.nil, st1)) :
    errorHandler f r st = st1 := by
  simp only [errorHandler, h]

theorem errorHandler_of_badRequest_nil (f : HttpRequest → State → Option GoError × State)
    (r : HttpRequest) (st st1 : State)
    (h : f r st = (some (GoError.badRequest GoError.nil), st1)) :
    errorHandler f r st = { st1 with panicked := true } := by
  simp only [errorHandler, h, GoError.Error]

theorem errorHandler_of_notFound (f : HttpRequest → State → Option GoError × State)
    (r : HttpRequest) (st st1 : State) (e : GoError)
    (h : f r st = (some (GoError.notFound e), st1)) :
    errorHandler f r st
      = { st1 with
          calls := st1.calls ++
            [WriterCall.WriteHeader 404, WriterCall.Write (bytesOf "Task not found\n")] } := by
  simp only [errorHandler, h, httpError_of_valid st1 "Task not found" 404 (by decide) (by decide),
    orPanic]
  rfl

theorem errorHandler_of_notAuthorized (f : HttpRequest → State → Option GoError × State)
    (r : HttpRequest) (st st1 : State) (e : GoError)
    (h : f r st = (some (GoError.notAuthorized e), st1)) :
    errorHandler f r st
      = { st1 with
          calls := st1.calls ++
            [WriterCall.WriteHeader 401, WriterCall.Write (bytesOf "Invalid API key\n")] } := by
  simp only [errorHandler, h,
    httpError_of_valid st1 "Invalid API key" 401 (by decide) (by decide), orPanic]
  rfl

theorem errorHandler_of_other (f : HttpRequest → State → Option GoError × State)
    (r : HttpRequest) (st st1 : State) (msg : String)
    (h : f r st = (some (GoError.other msg), st1)) :
    httpError (logPrintln st1 (GoError.other msg)) "oops" 500 = some (errorHandler f r st) ∧
      errorHandler f r st
        = { st1 with
            calls := st1.calls ++
              [WriterCall.WriteHeader 500, WriterCall.Write (bytesOf "oops\n")]
            logged := st1.logged ++ [msg] } := by
  have hh := httpError_of_valid (logPrintln st1 (GoError.other msg)) "oops" 500
    (by decide) (by decide)
  constructor
  · simp only [errorHandler, h, hh, orPanic]
  · simp only [errorHandler, h, hh, orPanic]
    rfl

/-! ## Passthrough (C1) -/

/-- C1, counterexample. An upstream that answers with status 099 and the body
`{"id":550}`, read without error: the status is not 401, yet `w.WriteHeader(99)`
panics, so `newRequest` makes no call on the response writer, does not reach
`w.Write`, and does not return nil; the panic leaves `errorHandler`, and the
caller receives neither the status nor the body. -/
theorem passthrough_fails_below_100 :
    (GetMovie (constEnv 99 (.ok body550)) reqMovie550 State.fresh).1 = none ∧
      (GetMovie (constEnv 99 (.ok body550)) reqMovie550 State.fresh).1 ≠ some GoError.nil ∧
      (GetMovie (constEnv 99 (.ok body550)) reqMovie550 State.fresh).2.calls = [] ∧
      (errorHandler (GetMovie (constEnv 99 (.ok body550))) reqMovie550 State.fresh).panicked
        = true ∧
      sentStatus (errorHandler (GetMovie (constEnv 99 (.ok body550))) reqMovie550
        State.fresh).calls ≠ some 99 ∧
      sentBody (errorHandler (GetMovie (constEnv 99 (.ok body550))) reqMovie550
        State.fresh).calls ≠ body550 := by
  decide

/-- C1, amended. When the upstream answers with a status `s` other than 401
that the response writer accepts (`100 ≤ s ≤ 999`) and its body `b` is read
without error, `newRequest` appends exactly the calls `WriteHeader(s)` and
`Write(b)` to the response writer, closes the body and returns the nil error;
`errorHandler` around it adds nothing, so the caller receives status `s` and
body `b`. -/
theorem newRequest_passthrough (env : Env) (m : String) (url : HttpRequest → String)
    (r : HttpRequest) (st : State) (req : Request) (s : Nat) (b : List UInt8)
    (hreq : env.NewRequest m (url r) = .ok req)
    (hdo : env.Do req = .ok { StatusCode := s, Body := .ok b })
    (hs : s ≠ 401) (hlo : 100 ≤ s) (hhi : s ≤ 999) :
    newRequest env m (url r) st =
        (some GoError.nil,
          { st with
            calls := st.calls ++ [WriterCall.WriteHeader s, WriterCall.Write b]
            bodyClosed := some true }) ∧
      errorHandler (fun r st => newRequest env m (url r) st) r st
        = (newRequest env m (url r) st).2 ∧
      (errorHandler (fun r st => newRequest env m (url r) st) r State.fresh).calls
        = [WriterCall.WriteHeader s, WriterCall.Write b] ∧
      sentStatus (errorHandler (fun r st => newRequest env m (url r) st) r State.fresh).calls
        = some s ∧
      sentBody (errorHandler (fun r st => newRequest env m (url r) st) r State.fresh).calls
        = b ∧
      (errorHandler (fun r st => newRequest env m (url r) st) r State.fresh).panicked
        = false := by
  have h := fun st => newRequest_of_body env m (url r) st req s b hreq hdo hs hlo hhi
  have he := fun st => errorHandler_of_nil (fun r st => newRequest env m (url r) st) r
    st _ (h st)
  simp [he, h, State.fresh, sentStatus, sentBody]

/-- The two passthrough examples of the specification: upstream `(200, {"id":550})`
through `GetMovie` and upstream `(500, {"error":"x"})` through
`ListMoviesDiscover` reach the caller unchanged. -/
theorem newRequest_passthrough_witness :
    (sentStatus (errorHandler (GetMovie (constEnv 200 (.ok body550))) reqMovie550
        State.fresh).calls = some 200 ∧
      sentBody (errorHandler (GetMovie (constEnv 200 (.ok body550))) reqMovie550
        State.fresh).calls = body550) ∧
    (sentStatus (errorHandler (ListMoviesDiscover (constEnv 500 (.ok bodyErrX))) reqDiscover
        State.fresh).calls = some 500 ∧
      sentBody (errorHandler (ListMoviesDiscover (constEnv 500 (.ok bodyErrX))) reqDiscover
        State.fresh).calls = bodyErrX) :=
  ⟨⟨(newRequest_passthrough (constEnv 200 (.ok body550)) "GET"
      (movieURL (constEnv 200 (.ok body550))) reqMovie550 State.fresh
      { Method := "GET", URL := movieURL (constEnv 200 (.ok body550)) reqMovie550 }
      200 body550 rfl rfl (by decide) (by decide) (by decide)).2.2.2.1,
    (newRequest_passthrough (constEnv 200 (.ok body550)) "GET"
      (movieURL (constEnv 200 (.ok body550))) reqMovie550 State.fresh
      { Method := "GET", URL := movieURL (constEnv 200 (.ok body550)) reqMovie550 }
      200 body550 rfl rfl (by decide) (by decide) (by decide)).2.2.2.2.1⟩,
   ⟨(newRequest_passthrough (constEnv 500 (.ok bodyErrX)) "GET"
      (discoverURL (constEnv 500 (.ok bodyErrX))) reqDiscover State.fresh
      { Method := "GET", URL := discoverURL (constEnv 500 (.ok bodyErrX)) reqDiscover }
      500 bodyErrX rfl rfl (by decide) (by decide) (by decide)).2.2.2.1,
    (newRequest_passthrough (constEnv 500 (.ok bodyErrX)) "GET"
      (discoverURL (constEnv 500 (.ok bodyErrX))) reqDiscover State.fresh
      { Method := "GET", URL := discoverURL (constEnv 500 (.ok bodyErrX)) reqDiscover }
      500 bodyErrX rfl rfl (by decide) (by decide) (by decide)).2.2.2.2.1⟩⟩

/-! ## Upstream 401 (C2) -/

/-- C2, counterexample. With an upstream answering 401, the body the caller
receives is not exactly `Invalid API key`: `http.Error` ends the message with a
line feed. -/
theorem unauthorized_body_not_exact :
    sentBody (errorHandler (GetMovie (constEnv 401 (.ok body550))) reqMovie550
        State.fresh).calls ≠ bytesOf "Invalid API key" ∧
      sentBody (errorHandler (ListMoviesDiscover (constEnv 401 (.ok body550))) reqDiscover
        State.fresh).calls ≠ bytesOf "Invalid API key" := by
  decide

/-- C2, amended. For every upstream response with status 401, whatever its
body, the caller (through `errorHandler` around `newRequest`) receives status
401 and a body that is exactly `Invalid API key` followed by one line feed;
these are the only writes, so no byte of the upstream body is written. -/
theorem errorHandler_unauthorized (env : Env) (m : String) (url : HttpRequest → String)
    (r : HttpRequest) (req : Request) (res : Response)
    (hreq : env.NewRequest m (url r) = .ok req) (hdo : env.Do req = .ok res)
    (hs : res.StatusCode = 401) :
    (newRequest env m (url r) State.fresh).2.calls = [] ∧
      (errorHandler (fun r st => newRequest env m (url r) st) r State.fresh).calls
        = [WriterCall.WriteHeader 401, WriterCall.Write (bytesOf "Invalid API key" ++ [10])] ∧
      sentStatus (errorHandler (fun r st => newRequest env m (url r) st) r State.fresh).calls
        = some 401 ∧
      sentBody (errorHandler (fun r st => newRequest env m (url r) st) r State.fresh).calls
        = bytesOf "Invalid API key" ++ [10] ∧
      (errorHandler (fun r st => newRequest env m (url r) st) r State.fresh).panicked
        = false := by
  have h := newRequest_of_unauthorized env m (url r) State.fresh req res hreq hdo hs
  have hb : bytesOf "Invalid API key\n" = bytesOf "Invalid API key" ++ [10] := by
    decide
  have he := errorHandler_of_notAuthorized (fun r st => newRequest env m (url r) st) r
    State.fresh _ GoError.nil h
  rw [he, h]
  simp [State.fresh, sentStatus, sentBody, hb]

/-- An upstream 401 with a body, through `GetMovie`. -/
theorem errorHandler_unauthorized_witness :
    sentStatus (errorHandler (GetMovie (constEnv 401 (.ok body550))) reqMovie550
        State.fresh).calls = some 401 ∧
      sentBody (errorHandler (GetMovie (constEnv 401 (.ok body550))) reqMovie550
        State.fresh).calls = bytesOf "Invalid API key" ++ [10] :=
  ⟨(errorHandler_unauthorized (constEnv 401 (.ok body550)) "GET"
      (movieURL (constEnv 401 (.ok body550))) reqMovie550
      { Method := "GET", URL := movieURL (constEnv 401 (.ok body550)) reqMovie550 }
      { StatusCode := 401, Body := .ok body550 } rfl rfl rfl).2.2.1,
   (errorHandler_unauthorized (constEnv 401 (.ok body550)) "GET"
      (movieURL (constEnv 401 (.ok body550))) reqMovie550
      { Method := "GET", URL := movieURL (constEnv 401 (.ok body550)) reqMovie550 }
      { StatusCode := 401, Body := .ok body550 } rfl rfl rfl).2.2.2.1⟩

/-! ## Transport failure (C3) -/

/-- C3, counterexample. With an unreachable upstream, the body the caller
receives is not exactly `Task not found`, for either handler: `http.Error` ends
the message with a line feed. -/
theorem transport_body_not_exact :
    sentBody (errorHandler (ListMoviesDiscover downEnv) reqDiscover State.fresh).calls
        ≠ bytesOf "Task not found" ∧
      sentBody (errorHandler (GetMovie downEnv) reqMovie550 State.fresh).calls
        ≠ bytesOf "Task not found" := by
  decide

/-- C3, amended. Whenever the outbound call fails at the transport level (`Do`
returns an error), the caller receives status 404 and a body that is exactly
`Task not found` followed by one line feed. This holds for the discovery
handler and, separately, for the single-movie handler: each needs only the
failure of its own outbound call. -/
theorem errorHandler_transport_failure (env : Env) (r : HttpRequest) :
    (∀ (req : Request) (e : String),
      env.NewRequest "GET" (discoverURL env r) = .ok req → env.Do req = .error e →
        (errorHandler (ListMoviesDiscover env) r State.fresh).calls
            = [WriterCall.WriteHeader 404,
                WriterCall.Write (bytesOf "Task not found" ++ [10])] ∧
          sentStatus (errorHandler (ListMoviesDiscover env) r State.fresh).calls = some 404 ∧
          sentBody (errorHandler (ListMoviesDiscover env) r State.fresh).calls
            = bytesOf "Task not found" ++ [10] ∧
          (errorHandler (ListMoviesDiscover env) r State.fresh).panicked = false) ∧
    (∀ (req : Request) (e : String),
      env.NewRequest "GET" (movieURL env r) = .ok req → env.Do req = .error e →
        (errorHandler (GetMovie env) r State.fresh).calls
            = [WriterCall.WriteHeader 404,
                WriterCall.Write (bytesOf "Task not found" ++ [10])] ∧
          sentStatus (errorHandler (GetMovie env) r State.fresh).calls = some 404 ∧
          sentBody (errorHandler (GetMovie env) r State.fresh).calls
            = bytesOf "Task not found" ++ [10] ∧
          (errorHandler (GetMovie env) r State.fresh).panicked = false) := by
  have hb : bytesOf "Task not found\n" = bytesOf "Task not found" ++ [10] := by
    decide
  constructor
  · intro req e hreq hdo
    have k : ListMoviesDiscover env r State.fresh
        = (some (GoError.notFound GoError.nil), State.fresh) :=
      newRequest_of_transport_error env "GET" _ State.fresh req e hreq hdo
    rw [errorHandler_of_notFound (ListMoviesDiscover env) r State.fresh State.fresh
      GoError.nil k]
    simp [State.fresh, sentStatus, sentBody, hb]
  · intro req e hreq hdo
    have k : GetMovie env r State.fresh
        = (some (GoError.notFound GoError.nil), State.fresh) :=
      newRequest_of_transport_error env "GET" _ State.fresh req e hreq hdo
    rw [errorHandler_of_notFound (GetMovie env) r State.fresh State.fresh GoError.nil k]
    simp [State.fresh, sentStatus, sentBody, hb]

/-- A discovery request whose outbound call fails while the movie endpoint is
up, and a single-movie request against an unreachable upstream. -/
theorem errorHandler_transport_failure_witness :
    (sentStatus (errorHandler (ListMoviesDiscover discoverDownEnv) reqDiscover
        State.fresh).calls = some 404 ∧
      sentBody (errorHandler (ListMoviesDiscover discoverDownEnv) reqDiscover
        State.fresh).calls = bytesOf "Task not found" ++ [10]) ∧
    (sentStatus (errorHandler (GetMovie discoverDownEnv) reqDiscover State.fresh).calls
        = some 200) ∧
    (sentStatus (errorHandler (GetMovie downEnv) reqMovie550 State.fresh).calls = some 404 ∧
      sentBody (errorHandler (GetMovie downEnv) reqMovie550 State.fresh).calls
        = bytesOf "Task not found" ++ [10]) :=
  ⟨⟨((errorHandler_transport_failure discoverDownEnv reqDiscover).1
        { Method := "GET", URL := discoverURL discoverDownEnv reqDiscover }
        "dial tcp: connection refused" rfl rfl).2.1,
     ((errorHandler_transport_failure discoverDownEnv reqDiscover).1
        { Method := "GET", URL := discoverURL discoverDownEnv reqDiscover }
        "dial tcp: connection refused" rfl rfl).2.2.1⟩,
   by decide,
   ⟨((errorHandler_transport_failure downEnv reqMovie550).2
        { Method := "GET", URL := movieURL downEnv reqMovie550 }
        "dial tcp: connection refused" rfl rfl).2.1,
     ((errorHandler_transport_failure downEnv reqMovie550).2
        { Method := "GET", URL := movieURL downEnv reqMovie550 }
        "dial tcp: connection refused" rfl rfl).2.2.1⟩⟩

/-! ## Body-read failure (C6) -/

/-- C6. Whenever reading the upstream response body fails (upstream status not
401), `newRequest` returns that read error and has made no call on the response
writer; `errorHandler` logs the error and answers the caller with
`http.Error(w, "oops", 500)`: status 500 and the message `oops` (sent as a
line). The reply does not depend on the read error. -/
theorem errorHandler_read_failure (env : Env) (m : String) (url : HttpRequest → String)
    (r : HttpRequest) (st : State) (req : Request) (s : Nat) (e : String)
    (hreq : env.NewRequest m (url r) = .ok req)
    (hdo : env.Do req = .ok { StatusCode := s, Body := .error e })
    (hs : s ≠ 401) :
    (newRequest env m (url r) st).1 = some (GoError.other e) ∧
      (newRequest env m (url r) st).2.calls = st.calls ∧
      httpError (logPrintln { st with bodyClosed := some true } (GoError.other e)) "oops" 500
        = some (errorHandler (fun r st => newRequest env m (url r) st) r st) ∧
      (errorHandler (fun r st => newRequest env m (url r) st) r State.fresh).calls
        = [WriterCall.WriteHeader 500, WriterCall.Write (bytesOf "oops" ++ [10])] ∧
      sentStatus (errorHandler (fun r st => newRequest env m (url r) st) r State.fresh).calls
        = some 500 ∧
      sentBody (errorHandler (fun r st => newRequest env m (url r) st) r State.fresh).calls
        = bytesOf "oops" ++ [10] ∧
      (errorHandler (fun r st => newRequest env m (url r) st) r State.fresh).logged = [e] := by
  have h := fun st => newRequest_of_read_error env m (url r) st req s e hreq hdo hs
  have hb : bytesOf "oops\n" = bytesOf "oops" ++ [10] := by decide
  have he := fun st => errorHandler_of_other (fun r st => newRequest env m (url r) st) r
    st _ e (h st)
  refine ⟨by rw [h], by rw [h], (he st).1, ?_⟩
  rw [(he State.fresh).2]
  simp [State.fresh, sentStatus, sentBody, hb]

/-- An upstream answering 200 whose body cannot be read, through `GetMovie`. -/
theorem errorHandler_read_failure_witness :
    sentStatus (errorHandler (GetMovie (constEnv 200 (.error "unexpected EOF"))) reqMovie550
        State.fresh).calls = some 500 ∧
      sentBody (errorHandler (GetMovie (constEnv 200 (.error "unexpected EOF"))) reqMovie550
        State.fresh).calls = bytesOf "oops" ++ [10] :=
  ⟨(errorHandler_read_failure (constEnv 200 (.error "unexpected EOF")) "GET"
      (movieURL (constEnv 200 (.error "unexpected EOF"))) reqMovie550 State.fresh
      { Method := "GET", URL := movieURL (constEnv 200 (.error "unexpected EOF")) reqMovie550 }
      200 "unexpected EOF" rfl rfl (by decide)).2.2.2.2.1,
   (errorHandler_read_failure (constEnv 200 (.error "unexpected EOF")) "GET"
      (movieURL (constEnv 200 (.error "unexpected EOF"))) reqMovie550 State.fresh
      { Method := "GET", URL := movieURL (constEnv 200 (.error "unexpected EOF")) reqMovie550 }
      200 "unexpected EOF" rfl rfl (by decide)).2.2.2.2.2.1⟩

/-! ## Request construction failure (C7) -/

/-- C7, the code at the failing input `GET /v1/movies?a=%0A`. The upstream URL
holds a line feed, `http.NewRequest` fails and `newRequest` returns
`badRequest{}`, whose embedded error is nil. In `errorHandler` the argument
`err.Error()` then panics before `http.Error` is called: no status 400 and no
body is written, and the handler does not complete normally. -/
theorem badRequest_reply_panics :
    ListMoviesDiscover ctlEnv reqCtlQuery State.fresh
        = (some (GoError.badRequest GoError.nil), State.fresh) ∧
      (GoError.badRequest GoError.nil).Error = none ∧
      (errorHandler (ListMoviesDiscover ctlEnv) reqCtlQuery State.fresh).panicked = true ∧
      (errorHandler (ListMoviesDiscover ctlEnv) reqCtlQuery State.fresh).calls = [] ∧
      sentStatus (errorHandler (ListMoviesDiscover ctlEnv) reqCtlQuery State.fresh).calls
        ≠ some 400 := by
  decide

/-! ## Closing the upstream body (C9) -/

/-- C9, the code at the failing input, an upstream response with status 401.
`newRequest` has obtained a response and returns `notAuthorized{}` before the
`defer res.Body.Close()` statement is reached: the body is still open when
`newRequest` returns, and stays open after `errorHandler`. -/
theorem body_left_open_on_401 :
    (newRequest (constEnv 401 (.ok body550)) "GET" "https://api.example.org/3/movie/550?api_key=k"
        State.fresh).2.bodyClosed = some false ∧
      (GetMovie (constEnv 401 (.ok body550)) reqMovie550 State.fresh).1
        = some (GoError.notAuthorized GoError.nil) ∧
      (errorHandler (GetMovie (constEnv 401 (.ok body550))) reqMovie550 State.fresh).bodyClosed
        = some false ∧
      (newRequest (constEnv 200 (.ok body550)) "GET" "https://api.example.org/3/movie/550?api_key=k"
        State.fresh).2.bodyClosed = some true := by
  decide

/-! ## One response per request (C10) -/

/-- C10, the code at the failing input `GET /v1/movies/%7F`. `GetMovie` returns
the non-nil error `badRequest{}`, and `errorHandler` makes no call on the
response writer at all (it panics in `err.Error()`): the caller gets zero status
writes, not one, and this error value maps to none of 400, 404, 401, 500. -/
theorem badRequest_no_status_write :
    (GetMovie ctlEnv reqCtlPath State.fresh).1 = some (GoError.badRequest GoError.nil) ∧
      (GetMovie ctlEnv reqCtlPath State.fresh).1 ≠ some GoError.nil ∧
      statusWrites (GetMovie ctlEnv reqCtlPath State.fresh).2.calls = 0 ∧
      statusWrites (errorHandler (GetMovie ctlEnv) reqCtlPath State.fresh).calls = 0 ∧
      bodyWrites (errorHandler (GetMovie ctlEnv) reqCtlPath State.fresh).calls = 0 ∧
      sentStatus (errorHandler (GetMovie ctlEnv) reqCtlPath State.fresh).calls = none ∧
      (errorHandler (GetMovie ctlEnv) reqCtlPath State.fresh).panicked = true := by
  decide

/-! ## The upstream URL of the discovery handler (C4) -/

theorem discoverURL_eq (env : Env) (r : HttpRequest) :
    discoverURL env r
      = env.PATH_API_TMD ++ "discover/movie?api_key=" ++ env.API_KEY ++
          String.join (r.Query.map queryPiece) := by
  unfold discoverURL
  have h := foldl_append_pieces queryPiece r.Query
    (env.PATH_API_TMD ++ "discover/movie?" ++ "api_key=" ++ env.API_KEY)
  unfold queryPiece at h ⊢
  rw [h]
  apply String.ext
  simp [List.append_assoc]

theorem contains_join_of_mem (pre : String) (l : List String) (p : String) (hp : p ∈ l) :
    Contains (pre ++ String.join l) p := by
  unfold Contains
  rw [String.data_append, String.join_eq]
  have h1 : p.data <:+: (l.map String.data).flatten :=
    List.infix_of_mem_flatten (List.mem_map_of_mem String.data hp)
  exact h1.trans (List.suffix_append pre.data _).isInfix

/-- C4. The upstream URL built by `ListMoviesDiscover` is
`<base>discover/movie?api_key=<key>` followed by one piece `&<name>=<first-value>`
per entry of the query-parameter map, in the order the map is visited, and
nothing else; the map has one entry per distinct name, so the pieces are as
many as the distinct names. Hence it contains `&X=Y` for every
parameter `X` with first value `Y`, it contains `api_key=<key>`, and it does
not depend on the further values of a repeated name. -/
theorem discoverURL_pieces (env : Env) (r : HttpRequest) (st : State) :
    ListMoviesDiscover env r st = newRequest env "GET" (discoverURL env r) st ∧
      discoverURL env r
        = env.PATH_API_TMD ++ "discover/movie?api_key=" ++ env.API_KEY ++
            String.join (r.Query.map (fun e => "&" ++ e.n ++ "=" ++ e.v0)) ∧
      (∀ e ∈ r.Query, Contains (discoverURL env r) ("&" ++ e.n ++ "=" ++ e.v0)) ∧
      Contains (discoverURL env r) ("api_key=" ++ env.API_KEY) ∧
      (∀ r2 : HttpRequest,
        r2.Query.map (fun e => (e.n, e.v0)) = r.Query.map (fun e => (e.n, e.v0)) →
          discoverURL env r2 = discoverURL env r) ∧
      (List.Nodup (r.Query.map QueryEntry.n) →
        (r.Query.map (fun e => "&" ++ e.n ++ "=" ++ e.v0)).length
          = (List.dedup (r.Query.map QueryEntry.n)).length) := by
  refine ⟨rfl, discoverURL_eq env r, ?_, ?_, ?_, ?_⟩
  rotate_right
  · intro hn
    rw [List.Nodup.dedup hn]
    simp
  · intro e he
    rw [discoverURL_eq]
    exact contains_join_of_mem _ _ _ (List.mem_map_of_mem queryPiece he)
  · rw [discoverURL_eq]
    unfold Contains
    refine ⟨(env.PATH_API_TMD ++ "discover/movie?").data,
      (String.join (r.Query.map queryPiece)).data, ?_⟩
    simp [String.data_append, List.append_assoc]
  · intro r2 h
    rw [discoverURL_eq, discoverURL_eq]
    have hm : r2.Query.map queryPiece = r.Query.map queryPiece := by
      have := congrArg (List.map (fun p : String × String => "&" ++ p.1 ++ "=" ++ p.2)) h
      simpa [List.map_map, Function.comp_def, queryPiece] using this
    rw [hm]

/-- The discovery URL for `?a=1&b=2` and for the repeated name `?a=1&a=2`. -/
theorem discoverURL_pieces_witness :
    discoverURL (constEnv 200 (.ok [])) reqAB
        = "https://api.example.org/3/discover/movie?api_key=k&a=1&b=2" ∧
      Contains (discoverURL (constEnv 200 (.ok [])) reqAB) "&b=2" ∧
      discoverURL (constEnv 200 (.ok [])) reqRepeated
        = "https://api.example.org/3/discover/movie?api_key=k&a=1" ∧
      (reqAB.Query.map (fun e => "&" ++ e.n ++ "=" ++ e.v0)).length
        = (List.dedup (reqAB.Query.map QueryEntry.n)).length :=
  ⟨(discoverURL_pieces (constEnv 200 (.ok [])) reqAB State.fresh).2.1.trans (by decide),
   (discoverURL_pieces (constEnv 200 (.ok [])) reqAB State.fresh).2.2.1
      { n := "b", v0 := "2", vrest := [] } (by decide),
   (discoverURL_pieces (constEnv 200 (.ok [])) reqRepeated State.fresh).2.1.trans (by decide),
   (discoverURL_pieces (constEnv 200 (.ok [])) reqAB State.fresh).2.2.2.2.2 (by decide)⟩

/-! ## The upstream URL of the single-movie handler (C5) -/

/-- C5. For every inbound path, the `id` of `GetMovie` is the last
slash-delimited segment of the path: it contains no `/`, and the path is either
`id` itself (a path without `/`) or some text, a `/`, and `id`. The upstream URL
is `<base>movie/<id>?api_key=<key>` with that `id` unchanged. For
`/v1/movies/550` the URL is `<base>movie/550?api_key=<key>`, for `/v1/movies/42`
the id is `42`, and for `/v1/movies` the id is `movies`. -/
theorem GetMovie_last_segment (env : Env) (r : HttpRequest) (st : State) :
    GetMovie env r st
        = newRequest env "GET"
            (env.PATH_API_TMD ++ "movie/" ++ movieId r ++ "?api_key=" ++ env.API_KEY) st ∧
      '/' ∉ (movieId r).data ∧
      (('/' ∉ r.Path.data ∧ movieId r = r.Path) ∨
        ∃ pre : String, r.Path = pre ++ "/" ++ movieId r) ∧
      movieURL env { Path := "/v1/movies/550", Query := r.Query }
        = env.PATH_API_TMD ++ "movie/" ++ "550" ++ "?api_key=" ++ env.API_KEY ∧
      movieId { Path := "/v1/movies/42", Query := r.Query } = "42" ∧
      movieId { Path := "/v1/movies", Query := r.Query } = "movies" := by
  have hd := movieId_data r
  have hl := splitChars_last '/' r.Path.data []
  rw [← hd] at hl
  refine ⟨rfl, hl.1, ?_, ?_, ?_, ?_⟩
  · rcases hl.2 with ⟨h1, h2⟩ | ⟨⟨pre, h2⟩, _⟩
    · refine Or.inl ⟨h1, ?_⟩
      apply String.ext
      rw [hd, h2]
      rfl
    · refine Or.inr ⟨String.mk pre, ?_⟩
      apply String.ext
      rw [h2]
      simp [String.data_append]
  · have h550 : movieId { Path := "/v1/movies/550", Query := r.Query } = "550" := rfl
    unfold movieURL
    rw [h550]
  · rfl
  · rfl

/-- The single-movie URL for `GET /v1/movies/550`. -/
theorem GetMovie_last_segment_witness :
    (GetMovie (constEnv 200 (.ok body550)) reqMovie550 State.fresh
        = newRequest (constEnv 200 (.ok body550)) "GET"
            "https://api.example.org/3/movie/550?api_key=k" State.fresh) ∧
      '/' ∉ (movieId reqMovie550).data :=
  ⟨(GetMovie_last_segment (constEnv 200 (.ok body550)) reqMovie550 State.fresh).1.trans
      (by decide),
   (GetMovie_last_segment (constEnv 200 (.ok body550)) reqMovie550 State.fresh).2.1⟩

/-! ## Determinism (C8) -/

/-- C8, counterexample. The request `GET /v1/movies?a=1&b=2` handled twice, the
parameter map visited once `a` first and once `b` first: the two upstream URLs
differ, and a deterministic upstream (a function of the URL) makes the caller
receive status 200 in one run and 404 in the other. -/
theorem discoverURL_depends_on_order :
    reqAB.Path = reqBA.Path ∧ List.Perm reqAB.Query reqBA.Query ∧
      discoverURL orderEnv reqAB ≠ discoverURL orderEnv reqBA ∧
      sentStatus (errorHandler (ListMoviesDiscover orderEnv) reqAB State.fresh).calls
        = some 200 ∧
      sentStatus (errorHandler (ListMoviesDiscover orderEnv) reqBA State.fresh).calls
        = some 404 :=
  ⟨rfl, List.Perm.swap _ _ _, by decide, by decide, by decide⟩

/-- C8, amended. Two runs of the proxy on the same request (same path, same
query-parameter map, possibly visited in a different order) against the same
upstream: `GetMovie` builds the identical upstream URL and the caller receives
the identical reply; `ListMoviesDiscover` does so when the request has at most
one query-parameter name, or when the map is visited in the same order; in
general its two URLs have the same beginning `<base>discover/movie?api_key=<key>`
followed by the same `&<name>=<first-value>` pieces in a possibly different
order. -/
theorem proxy_deterministic_up_to_order (env : Env) (r1 r2 : HttpRequest) (st : State)
    (hp : r1.Path = r2.Path) (hq : List.Perm r1.Query r2.Query) :
    (movieURL env r1 = movieURL env r2 ∧
        errorHandler (GetMovie env) r1 st = errorHandler (GetMovie env) r2 st) ∧
      (r1.Query.length ≤ 1 →
        discoverURL env r1 = discoverURL env r2 ∧
          errorHandler (ListMoviesDiscover env) r1 st
            = errorHandler (ListMoviesDiscover env) r2 st) ∧
      (r1.Query = r2.Query →
        discoverURL env r1 = discoverURL env r2 ∧
          errorHandler (ListMoviesDiscover env) r1 st
            = errorHandler (ListMoviesDiscover env) r2 st) ∧
      (discoverURL env r1
          = env.PATH_API_TMD ++ "discover/movie?api_key=" ++ env.API_KEY ++
              String.join (r1.Query.map queryPiece) ∧
        discoverURL env r2
          = env.PATH_API_TMD ++ "discover/movie?api_key=" ++ env.API_KEY ++
              String.join (r2.Query.map queryPiece) ∧
        List.Perm (r1.Query.map queryPiece) (r2.Query.map queryPiece)) := by
  have hm : movieURL env r1 = movieURL env r2 := by
    unfold movieURL movieId
    rw [hp]
  have hsame : r1.Query = r2.Query →
      discoverURL env r1 = discoverURL env r2 ∧
        errorHandler (ListMoviesDiscover env) r1 st
          = errorHandler (ListMoviesDiscover env) r2 st := by
    intro h
    have hu : discoverURL env r1 = discoverURL env r2 := by
      unfold discoverURL
      rw [h]
    refine ⟨hu, ?_⟩
    simp only [errorHandler, ListMoviesDiscover, hu]
  refine ⟨⟨hm, ?_⟩, ?_, hsame, discoverURL_eq env r1, discoverURL_eq env r2, hq.map queryPiece⟩
  · simp only [errorHandler, GetMovie, hm]
  · intro hlen
    apply hsame
    cases h1 : r1.Query with
    | nil =>
      rw [h1] at hq
      exact (List.Perm.nil_eq hq)
    | cons a t =>
      rw [h1] at hlen hq
      have ht : t = [] := by
        cases t with
        | nil => rfl
        | cons b u => simp at hlen
      subst ht
      exact (List.perm_singleton.mp hq.symm).symm

/-- Two runs of `GET /v1/movies?a=1&b=2` with the map visited in the two
orders: the single-movie reply is the same and the discovery URLs consist of
the same pieces. -/
theorem proxy_deterministic_up_to_order_witness :
    errorHandler (GetMovie orderEnv) reqAB State.fresh
        = errorHandler (GetMovie orderEnv) reqBA State.fresh ∧
      List.Perm (reqAB.Query.map queryPiece) (reqBA.Query.map queryPiece) :=
  ⟨(proxy_deterministic_up_to_order orderEnv reqAB reqBA State.fresh rfl
      (List.Perm.swap _ _ _)).1.2,
   (proxy_deterministic_up_to_order orderEnv reqAB reqBA State.fresh rfl
      (List.Perm.swap _ _ _)).2.2.2.2.2⟩

end Server
